import Mathlib

/-!
Verification development for the SRE observability platform's simulation core.

The Go sources embedded here:
- order-service (`src/unnamed/part_001`): `simulateLatency`, the gobreaker
  `ReadyToTrip` predicate, `handleCreateOrder`, `callDownstream`.
- payment-service (`src/unnamed/part_003`): same `simulateLatency` body as the
  order service, `ReadyToTrip` with threshold 0.6.
- user-service (`src/microservices/user-service/main.go`): its own
  `simulateLatency` variant (floor 0.5 ms, tail factor 2..7) and `userCache`.
- load-generator (`src/microservices/load-generator/main.go`):
  `diurnalMultiplier`, `selectEndpoint`, the burst/rate logic and the
  inter-request sleep computation in `generateTraffic`.

Machine reals (Go float64) are modelled by ℚ; the random draws consumed by the
code (`rand.NormFloat64`, `rand.Float64`) are explicit ℚ parameters.  Go's
float64 → time.Duration conversion truncates toward zero, modelled by
`ratTrunc`.  Durations are integers in nanoseconds (time.Millisecond = 10^6,
time.Second = 10^9).
-/

set_option autoImplicit false

/-- Go's float64 → int64 conversion truncates toward zero. -/
def ratTrunc (q : ℚ) : ℤ :=
  if 0 ≤ q then ⌊q⌋ else ⌈q⌉

/-- Pre-conversion delay (in milliseconds, exact) computed by `simulateLatency`
in the order service (`src/unnamed/part_001` lines 389-398) and identically in
the payment service (`src/unnamed/part_003` lines 391-399):
`delay := base + jitter*NormFloat64(); if delay < 1 { delay = 1 };
if Float64() < slowProb { delay += base * (3 + Float64()*7) }`.
`n` is the standard-normal draw, `uSpike` the spike-test uniform draw,
`uMag` the spike-magnitude uniform draw. -/
def delayOrder (base jitter slowProb n uSpike uMag : ℚ) : ℚ :=
  let d := base + jitter * n
  let d := if d < 1 then 1 else d
  if uSpike < slowProb then d + base * (3 + uMag * 7) else d

/-- `simulateLatency` of the order/payment services: the float delay is
converted by `time.Duration(delay) * time.Millisecond`, i.e. truncated to a
whole number of milliseconds and scaled to nanoseconds. -/
def simulateLatencyOrder (base jitter slowProb n uSpike uMag : ℚ) : ℤ :=
  ratTrunc (delayOrder base jitter slowProb n uSpike uMag) * 1000000

/-- Pre-conversion delay of the user service's `simulateLatency`
(`src/microservices/user-service/main.go` lines 452-461): the floor is 0.5
rather than 1, and the tail spike adds `base * (2 + Float64()*5)`. -/
def delayUser (base jitter slowProb n uSpike uMag : ℚ) : ℚ :=
  let d := base + jitter * n
  let d := if d < 1/2 then 1/2 else d
  if uSpike < slowProb then d + base * (2 + uMag * 5) else d

/-- `simulateLatency` of the user service, nanoseconds. -/
def simulateLatencyUser (base jitter slowProb n uSpike uMag : ℚ) : ℤ :=
  ratTrunc (delayUser base jitter slowProb n uSpike uMag) * 1000000

/-- The gobreaker `ReadyToTrip` predicate installed by the order service for
its payment-service and user-service breakers (`src/unnamed/part_001` lines
135-138, threshold 0.5) and by the payment service for its fraud-detection
breaker (`src/unnamed/part_003` lines 135-138, threshold 0.6):
`ratio := float64(counts.TotalFailures) / float64(counts.Requests);
return counts.Requests >= 5 && ratio >= threshold`.
When `requests = 0` Go's float division yields NaN and the ℚ division yields
0; in both cases the conjunction is already false through `requests >= 5`,
so the Bool result agrees with the Go code on all inputs. -/
def readyToTrip (threshold : ℚ) (requests totalFailures : ℕ) : Bool :=
  decide (5 ≤ requests) && decide (threshold ≤ (totalFailures : ℚ) / (requests : ℚ))

/-- `diurnalMultiplier` of the load generator
(`src/microservices/load-generator/main.go` lines 176-185):
`radians := float64(hour-12) * Pi / 12.0; base := 0.5 + 0.5*Cos(radians);
return 0.2 + 0.8*base`.  `hour` is `time.Now().Hour()`, an integer in 0..23;
the trigonometry is modelled over ℝ. -/
noncomputable def diurnalMultiplier (hour : ℤ) : ℝ :=
  0.2 + 0.8 * (0.5 + 0.5 * Real.cos ((hour - 12) * Real.pi / 12))

/-- Endpoint of a target service (`src/microservices/load-generator/main.go`
lines 74-78). -/
structure endpoint where
  method : String
  path : String
  weight : ℚ
deriving DecidableEq

/-- The weight sum computed by the first loop of `selectEndpoint`. -/
def totalWeight (endpoints : List endpoint) : ℚ :=
  (endpoints.map (fun ep => ep.weight)).sum

/-- The selection loop of `selectEndpoint`
(`src/microservices/load-generator/main.go` lines 193-201):
`cumulative := 0.0; for _, ep := range endpoints { cumulative += ep.Weight;
if r <= cumulative { return ep } }; return endpoints[len(endpoints)-1]`. -/
def selectLoop : List endpoint → ℚ → ℚ → endpoint → endpoint
  | [], _, _, last => last
  | ep :: rest, r, cumulative, last =>
    if r ≤ cumulative + ep.weight then ep
    else selectLoop rest r (cumulative + ep.weight) last

/-- `selectEndpoint` with the uniform draw `r = rand.Float64() * totalWeight`
passed in explicitly. On the empty list the Go code would panic at
`endpoints[len(endpoints)-1]`; that is modelled as `none`. -/
def selectEndpoint (endpoints : List endpoint) (r : ℚ) : Option endpoint :=
  match endpoints with
  | [] => none
  | ep :: rest => some (selectLoop (ep :: rest) r 0 ((ep :: rest).getLastD ep))

/-- One iteration of the rate computation in `generateTraffic`
(`src/microservices/load-generator/main.go` lines 232-252), as a step
function on the burst state `(inBurst, burstEnd)`:
`rps := BaseRPS * diurnalMultiplier(); if !inBurst && Float64() < BurstProbability
{ inBurst = true; burstEnd = now.Add(BurstDuration) }; if inBurst { if
now.After(burstEnd) { inBurst = false } else { rps *= BurstMultiplier } }`.
`diurnal` is the value of `diurnalMultiplier()` at this tick (its
trigonometric computation is opaque to the burst logic and modelled over ℚ
here), times are ℚ, and the result is `(rps, inBurst, burstEnd)` after the
iteration. -/
def generateTrafficStep (baseRPS diurnal burstProb burstMult burstDur : ℚ)
    (inBurst : Bool) (burstEnd : ℚ) (now draw : ℚ) : ℚ × Bool × ℚ :=
  let rps := baseRPS * diurnal
  let trig : Bool × ℚ :=
    if !inBurst && decide (draw < burstProb) then (true, now + burstDur)
    else (inBurst, burstEnd)
  if trig.1 then
    if trig.2 < now then (rps, false, trig.2)
    else (rps * burstMult, trig.1, trig.2)
  else (rps, trig.1, trig.2)

/-- The base inter-request interval of `generateTraffic`
(`src/microservices/load-generator/main.go` line 257):
`interval := time.Duration(float64(time.Second) / rps)`, in nanoseconds. -/
def intervalNs (rps : ℚ) : ℤ :=
  ratTrunc (1000000000 / rps)

/-- The jittered, clamped sleep duration of `generateTraffic`
(`src/microservices/load-generator/main.go` lines 257-262):
`jitter := time.Duration(float64(interval) * 0.3 * rand.NormFloat64());
sleepDuration := interval + jitter; if sleepDuration < time.Millisecond
{ sleepDuration = time.Millisecond }`.  `n` is the standard-normal draw. -/
def sleepDurationNs (rps n : ℚ) : ℤ :=
  let interval := intervalNs rps
  let jitter := ratTrunc ((interval : ℚ) * (3/10) * n)
  let s := interval + jitter
  if s < 1000000 then 1000000 else s

/-- gobreaker's three states (sony/gobreaker, used by order and payment
services). -/
inductive BreakerState where
  | stateClosed
  | stateOpen
  | stateHalfOpen
deriving DecidableEq

/-- Admission behaviour of gobreaker's `Execute` for a single call: while
`StateOpen` (cooldown not yet elapsed) it returns `ErrOpenState` without
invoking the wrapped function; while `StateHalfOpen` it admits the call only
when the probe budget (`MaxRequests`) is not exhausted, else returns
`ErrTooManyRequests` without invoking; while `StateClosed` the call is
invoked and its error propagates.  Result is `(erred, invoked)`;
`callFails` is whether the wrapped function would return an error.
Counter bookkeeping and state transitions are covered separately by
`readyToTrip` and are not needed for the claims about `Execute`. -/
def cbExecute (st : BreakerState) (probeExhausted : Bool) (callFails : Bool) :
    Bool × Bool :=
  match st with
  | .stateOpen => (true, false)
  | .stateHalfOpen => if probeExhausted then (true, false) else (callFails, true)
  | .stateClosed => (callFails, true)

/-- Observable events of the order service's create-order handler, in program
order. -/
inductive Event where
  | gaugeInc
  | sleepNs (ns : ℤ)
  | downstreamInvoke (service : String)
  | observeDuration
  | ordersCreatedInc
  | writeStatus (code : ℕ)
  | gaugeDec
deriving DecidableEq

/-- `handleCreateOrder` of the order service (`src/unnamed/part_001` lines
303-352) as a trace semantics.  Control flow of the source:
`ordersInProgress.Inc(); defer Dec(); time.Sleep(simulateLatency(200, 80,
0.05));` then `callDownstream(userBreaker, ...)` — on error observe the
duration histogram and write 502; then `callDownstream(paymentBreaker, ...)`
— on error observe and write 502; then `if rand.Float64() < 0.02` observe
and write 500; else `ordersCreatedTotal.Inc()`, observe, write 201.
`callDownstream` (lines 358-380) runs the HTTP request inside
`cb.Execute`, so the wrapped call is invoked exactly when `cbExecute`
admits it.  Inputs: the three latency draws, both breakers' admission
state, whether each downstream HTTP call would fail, and the local-error
draw.  Output: the HTTP status and the event trace. -/
def handleCreateOrder (n uSpike uMag : ℚ) (userSt paySt : BreakerState)
    (userEx payEx : Bool) (userCallFails payCallFails : Bool)
    (localDraw : ℚ) : ℕ × List Event :=
  let d := simulateLatencyOrder 200 80 (1/20) n uSpike uMag
  let pre : List Event := [Event.gaugeInc, Event.sleepNs d]
  let user := cbExecute userSt userEx userCallFails
  let userEvts := if user.2 then [Event.downstreamInvoke "user-service"] else []
  if user.1 then
    (502, pre ++ userEvts ++ [Event.observeDuration, Event.writeStatus 502, Event.gaugeDec])
  else
    let pay := cbExecute paySt payEx payCallFails
    let payEvts := if pay.2 then [Event.downstreamInvoke "payment-service"] else []
    if pay.1 then
      (502, pre ++ userEvts ++ payEvts ++
        [Event.observeDuration, Event.writeStatus 502, Event.gaugeDec])
    else if localDraw < 1/50 then
      (500, pre ++ userEvts ++ payEvts ++
        [Event.observeDuration, Event.writeStatus 500, Event.gaugeDec])
    else
      (201, pre ++ userEvts ++ payEvts ++
        [Event.ordersCreatedInc, Event.observeDuration, Event.writeStatus 201, Event.gaugeDec])

/-- User entity of the user service (`src/microservices/user-service/main.go`
lines 98-104). -/
structure User where
  id : String
  username : String
  email : String
  status : String
  createdAt : ℤ
deriving DecidableEq

/-- The user service's in-memory cache (`src/microservices/user-service/main.go`
lines 115-135): a Go map under a mutex, modelled as a lookup function. -/
def UserCache := String → Option User

/-- `userCache.Get` (lines 124-129): `u, ok := c.store[id]; return u, ok`. -/
def userCacheGet (c : UserCache) (id : String) : Option User × Bool :=
  (c id, (c id).isSome)

/-- `userCache.Set` (lines 131-135): `c.store[id] = u`. -/
def userCacheSet (c : UserCache) (id : String) (u : User) : UserCache :=
  fun k => if k = id then some u else c k

theorem ratTrunc_nonneg {q : ℚ} (h : 0 ≤ q) : 0 ≤ ratTrunc q := by
  simp only [ratTrunc, if_pos h]
  exact Int.floor_nonneg.mpr h

theorem ratTrunc_one_le {q : ℚ} (h : 1 ≤ q) : 1 ≤ ratTrunc q := by
  simp only [ratTrunc, if_pos (le_trans zero_le_one h)]
  exact Int.le_floor.mpr (by exact_mod_cast h)

theorem ratTrunc_abs_le (q : ℚ) : |(ratTrunc q : ℚ)| ≤ |q| := by
  unfold ratTrunc
  by_cases h : 0 ≤ q
  · rw [if_pos h, abs_of_nonneg h, abs_of_nonneg]
    · exact_mod_cast Int.floor_le q
    · exact_mod_cast Int.floor_nonneg.mpr h
  · push_neg at h
    rw [if_neg (not_le.mpr h), abs_of_nonpos h.le, abs_of_nonpos]
    · simp only [neg_le_neg_iff]
      exact_mod_cast Int.le_ceil q
    · exact_mod_cast Int.ceil_le.mpr (show q ≤ ((0 : ℤ) : ℚ) by exact_mod_cast h.le)

theorem delayOrder_ge_one (base jitter slowProb n uSpike uMag : ℚ)
    (hbase : 0 ≤ base) (hmag : 0 ≤ uMag) :
    1 ≤ delayOrder base jitter slowProb n uSpike uMag := by
  have hadd : 0 ≤ base * (3 + uMag * 7) := mul_nonneg hbase (by linarith)
  simp only [delayOrder]
  split_ifs with h1 h2 h2 <;> linarith

theorem delayUser_ge_half (base jitter slowProb n uSpike uMag : ℚ)
    (hbase : 0 ≤ base) (hmag : 0 ≤ uMag) :
    1/2 ≤ delayUser base jitter slowProb n uSpike uMag := by
  have hadd : 0 ≤ base * (2 + uMag * 5) := mul_nonneg hbase (by linarith)
  simp only [delayUser]
  split_ifs with h1 h2 h2 <;> linarith

/-- C1: the Closed→Open trip predicate shared (up to its threshold constant)
by the order service's payment-service and user-service breakers (threshold
0.5) and the payment service's fraud-detection breaker (threshold 0.6)
returns true exactly when the rolling-window request count is at least 5 and
totalFailures/totalRequests is at least the threshold; it returns false
whenever fewer than 5 requests were seen or the failure ratio is below the
threshold. -/
theorem readyToTrip_iff (threshold : ℚ) (requests totalFailures : ℕ) :
    (readyToTrip threshold requests totalFailures = true ↔
      5 ≤ requests ∧ threshold ≤ (totalFailures : ℚ) / (requests : ℚ))
    ∧ (requests < 5 → readyToTrip threshold requests totalFailures = false)
    ∧ (5 ≤ requests → (totalFailures : ℚ) / (requests : ℚ) < threshold →
        readyToTrip threshold requests totalFailures = false) := by
  refine ⟨by simp [readyToTrip], ?_, ?_⟩
  · intro h
    simp [readyToTrip, Nat.not_le.mpr h]
  · intro _ h2
    simp [readyToTrip, not_le.mpr h2]

theorem readyToTrip_iff_witness :
    readyToTrip (1/2) 6 3 = true ∧ readyToTrip (3/5) 4 4 = false
      ∧ readyToTrip (1/2) 10 4 = false :=
  ⟨(readyToTrip_iff (1/2) 6 3).1.mpr (by norm_num),
   (readyToTrip_iff (3/5) 4 4).2.1 (by norm_num),
   (readyToTrip_iff (1/2) 10 4).2.2 (by norm_num) (by norm_num)⟩

/-- C2 counterexample: the user service's `simulateLatency` floors the delay
at 0.5 ms, and the `time.Duration` conversion truncates to whole
milliseconds, so with base 30, jitter 10, a standard-normal draw of -3 and
no tail spike the returned duration is exactly 0 — not strictly positive. -/
theorem simulateLatencyUser_zero_cex :
    simulateLatencyUser 30 10 (1/100) (-3) (1/2) 0 = 0 := by
  have h : delayUser 30 10 (1/100) (-3) (1/2) 0 = 1/2 := by
    norm_num [delayUser]
  rw [simulateLatencyUser, h, ratTrunc]
  norm_num

/-- C2 amended: the order/payment services' `simulateLatency` floors the
delay at 1 ms, so (for a nonnegative base and a nonnegative spike-magnitude
draw) the returned duration is at least 1 ms and in particular strictly
positive; the user service's variant floors at 0.5 ms, which keeps the
pre-conversion delay at least 0.5 ms and the returned duration nonnegative,
but truncation to whole milliseconds can make it exactly zero. -/
theorem simulateLatency_min_floor (base jitter slowProb n uSpike uMag : ℚ)
    (hbase : 0 ≤ base) (hmag : 0 ≤ uMag) :
    (1000000 ≤ simulateLatencyOrder base jitter slowProb n uSpike uMag
        ∧ 0 < simulateLatencyOrder base jitter slowProb n uSpike uMag)
    ∧ (1/2 ≤ delayUser base jitter slowProb n uSpike uMag
        ∧ 0 ≤ simulateLatencyUser base jitter slowProb n uSpike uMag) := by
  have h1 : 1 ≤ ratTrunc (delayOrder base jitter slowProb n uSpike uMag) :=
    ratTrunc_one_le (delayOrder_ge_one base jitter slowProb n uSpike uMag hbase hmag)
  have h2 : 1/2 ≤ delayUser base jitter slowProb n uSpike uMag :=
    delayUser_ge_half base jitter slowProb n uSpike uMag hbase hmag
  have h3 : 0 ≤ ratTrunc (delayUser base jitter slowProb n uSpike uMag) :=
    ratTrunc_nonneg (by linarith)
  refine ⟨⟨?_, ?_⟩, h2, ?_⟩
  · simp only [simulateLatencyOrder]
    nlinarith
  · simp only [simulateLatencyOrder]
    nlinarith
  · simp only [simulateLatencyUser]
    positivity

theorem simulateLatency_min_floor_witness :
    (1000000 ≤ simulateLatencyOrder 200 80 (1/20) 0 1 0
        ∧ 0 < simulateLatencyOrder 200 80 (1/20) 0 1 0)
    ∧ (1/2 ≤ delayUser 200 80 (1/20) 0 1 0
        ∧ 0 ≤ simulateLatencyUser 200 80 (1/20) 0 1 0) :=
  simulateLatency_min_floor 200 80 (1/20) 0 1 0 (by norm_num) (by norm_num)

/-- C4 counterexample: in the user service's `simulateLatency` the tail-spike
branch adds `base * (2 + u*5)`, not `base * (3 + u*7)`: with base 30 and
spike-magnitude draw 0 the added tail delay is 60 ms, below the claimed
lower bound 3 * base = 90 ms. -/
theorem delayUser_tail_cex :
    delayUser 30 0 (1/100) 0 0 0 - delayUser 30 0 (1/100) 0 (1/100) 0 = 60
    ∧ ¬ (3 * 30 ≤ (60 : ℚ)) := by
  constructor
  · have h1 : delayUser 30 0 (1/100) 0 0 0 = 90 := by norm_num [delayUser]
    have h2 : delayUser 30 0 (1/100) 0 (1/100) 0 = 30 := by norm_num [delayUser]
    rw [h1, h2]
    norm_num
  · norm_num

/-- C4 amended: when the tail-spike branch fires, the order/payment services'
`simulateLatency` adds exactly `base * (3 + u*7)` with `u` uniform in [0,1),
an added tail delay in [3*base, 10*base); the user service's variant instead
adds exactly `base * (2 + u*5)`, an added tail delay in [2*base, 7*base). -/
theorem simulateLatency_tail_spike (base jitter slowProb n uSpike uMag : ℚ)
    (hspike : uSpike < slowProb) (hbase : 0 < base)
    (h0 : 0 ≤ uMag) (h1 : uMag < 1) :
    (delayOrder base jitter slowProb n uSpike uMag
        = delayOrder base jitter slowProb n slowProb uMag + base * (3 + uMag * 7)
      ∧ 3 * base ≤ base * (3 + uMag * 7) ∧ base * (3 + uMag * 7) < 10 * base)
    ∧ (delayUser base jitter slowProb n uSpike uMag
        = delayUser base jitter slowProb n slowProb uMag + base * (2 + uMag * 5)
      ∧ 2 * base ≤ base * (2 + uMag * 5) ∧ base * (2 + uMag * 5) < 7 * base) := by
  refine ⟨⟨?_, ?_, ?_⟩, ?_, ?_, ?_⟩
  · simp [delayOrder, hspike, lt_irrefl]
  · nlinarith
  · nlinarith
  · simp [delayUser, hspike, lt_irrefl]
  · nlinarith
  · nlinarith

theorem simulateLatency_tail_spike_witness :
    (delayOrder 200 80 (1/20) 0 0 (1/2)
        = delayOrder 200 80 (1/20) 0 (1/20) (1/2) + 200 * (3 + (1/2) * 7)
      ∧ 3 * 200 ≤ (200 : ℚ) * (3 + (1/2) * 7)
      ∧ (200 : ℚ) * (3 + (1/2) * 7) < 10 * 200)
    ∧ (delayUser 200 80 (1/20) 0 0 (1/2)
        = delayUser 200 80 (1/20) 0 (1/20) (1/2) + 200 * (2 + (1/2) * 5)
      ∧ 2 * 200 ≤ (200 : ℚ) * (2 + (1/2) * 5)
      ∧ (200 : ℚ) * (2 + (1/2) * 5) < 7 * 200) :=
  simulateLatency_tail_spike 200 80 (1/20) 0 0 (1/2)
    (by norm_num) (by norm_num) (by norm_num) (by norm_num)

/-- C5: burst state machine of `generateTraffic`.  Triggering (a uniform draw
below burstProbability while not bursting) enters the burst on that same
evaluation with `burstEndsAt = now + burstDuration` and reports the
burst-multiplied rate; while bursting, every evaluation with
`now ≤ burstEndsAt` reports `baseRate * diurnal * burstMultiplier` and keeps
the state; the first evaluation with `now > burstEndsAt` transitions back to
Normal and reports the unmultiplied rate on that same evaluation. -/
theorem generateTrafficStep_burst (baseRPS diurnal burstProb burstMult burstDur : ℚ)
    (burstEnd now draw : ℚ) :
    (0 ≤ burstDur → draw < burstProb →
      generateTrafficStep baseRPS diurnal burstProb burstMult burstDur false burstEnd now draw
        = (baseRPS * diurnal * burstMult, true, now + burstDur))
    ∧ (now ≤ burstEnd →
      generateTrafficStep baseRPS diurnal burstProb burstMult burstDur true burstEnd now draw
        = (baseRPS * diurnal * burstMult, true, burstEnd))
    ∧ (burstEnd < now →
      generateTrafficStep baseRPS diurnal burstProb burstMult burstDur true burstEnd now draw
        = (baseRPS * diurnal, false, burstEnd)) := by
  refine ⟨?_, ?_, ?_⟩
  · intro hdur hdraw
    have h1 : ¬ (now + burstDur < now) := by linarith
    simp [generateTrafficStep, hdraw, h1]
  · intro h
    have h1 : ¬ (burstEnd < now) := not_lt.mpr h
    simp [generateTrafficStep, h1]
  · intro h
    simp [generateTrafficStep, h]

theorem generateTrafficStep_burst_witness :
    generateTrafficStep 5 1 (1/50) 5 30 false 0 0 (1/100) = (5 * 1 * 5, true, 0 + 30)
    ∧ generateTrafficStep 5 1 (1/50) 5 30 true 30 10 1 = (5 * 1 * 5, true, 30)
    ∧ generateTrafficStep 5 1 (1/50) 5 30 true 30 31 1 = (5 * 1, false, 30) :=
  ⟨(generateTrafficStep_burst 5 1 (1/50) 5 30 0 0 (1/100)).1 (by norm_num) (by norm_num),
   (generateTrafficStep_burst 5 1 (1/50) 5 30 30 10 1).2.1 (by norm_num),
   (generateTrafficStep_burst 5 1 (1/50) 5 30 30 31 1).2.2 (by norm_num)⟩

/-- C6 counterexample: the jitter is `0.3 * NormFloat64()` — a normal draw,
not bounded by ±30%.  At rate 1 rps (base interval 10^9 ns) the draw n = 2
gives a sleep of 1.6·10^9 ns, above the claimed upper bound
1.3 * (1/rate) = 1.3·10^9 ns. -/
theorem sleepDuration_band_cex :
    sleepDurationNs 1 2 = 1600000000
    ∧ ¬ ((sleepDurationNs 1 2 : ℚ) ≤ (13/10) * (1000000000 / 1)) := by
  have hI : intervalNs 1 = 1000000000 := by
    rw [intervalNs, ratTrunc]
    norm_num
  have hs : sleepDurationNs 1 2 = 1600000000 := by
    simp only [sleepDurationNs, hI, ratTrunc]
    norm_num
  refine ⟨hs, ?_⟩
  rw [hs]
  norm_num

/-- C6 amended: the sleep interval is the truncated base interval
I = trunc(1s/rate) plus a jitter of I·0.3·n with n a standard-normal draw
(then clamped below at 1 ms), so it lies within ±30% of I whenever |n| ≤ 1
and I is at least the 1 ms clamp; draws with |n| > 1 place it outside the
band. -/
theorem sleepDuration_band (rps n : ℚ) (hn : |n| ≤ 1)
    (hI : 1000000 ≤ intervalNs rps) :
    (7/10) * (intervalNs rps : ℚ) ≤ (sleepDurationNs rps n : ℚ)
    ∧ (sleepDurationNs rps n : ℚ) ≤ (13/10) * (intervalNs rps : ℚ) := by
  have hI0 : (0 : ℚ) < (intervalNs rps : ℚ) := by
    exact_mod_cast lt_of_lt_of_le (by norm_num) hI
  have habs : |(ratTrunc ((intervalNs rps : ℚ) * (3/10) * n) : ℚ)|
      ≤ (3/10) * (intervalNs rps : ℚ) := by
    refine le_trans (ratTrunc_abs_le _) ?_
    rw [abs_mul, abs_mul, abs_of_nonneg hI0.le]
    have h310 : |(3/10 : ℚ)| = 3/10 := by norm_num
    rw [h310]
    nlinarith [abs_nonneg n]
  have hj1 := (abs_le.mp habs).1
  have hj2 := (abs_le.mp habs).2
  simp only [sleepDurationNs]
  split_ifs with h
  · have hlt : ((intervalNs rps + ratTrunc ((intervalNs rps : ℚ) * (3/10) * n) : ℤ) : ℚ)
        < 1000000 := by exact_mod_cast h
    have hcast : (1000000 : ℚ) ≤ (intervalNs rps : ℚ) := by exact_mod_cast hI
    push_cast at hlt ⊢
    constructor <;> linarith
  · push_cast
    constructor <;> linarith

theorem sleepDuration_band_witness :
    (7/10) * (intervalNs 10 : ℚ) ≤ (sleepDurationNs 10 (1/2) : ℚ)
    ∧ (sleepDurationNs 10 (1/2) : ℚ) ≤ (13/10) * (intervalNs 10 : ℚ) :=
  sleepDuration_band 10 (1/2) (by rw [abs_le]; norm_num)
    (by rw [intervalNs, ratTrunc]; norm_num)

theorem selectLoop_pos_weight (r : ℚ) :
    ∀ (eps : List endpoint) (cumulative : ℚ) (last : endpoint),
      cumulative < r → r ≤ cumulative + totalWeight eps →
      (∀ ep ∈ eps, 0 ≤ ep.weight) →
      0 < (selectLoop eps r cumulative last).weight := by
  intro eps
  induction eps with
  | nil =>
    intro cum last h1 h2 _
    simp only [totalWeight, List.map_nil, List.sum_nil, add_zero] at h2
    linarith
  | cons ep rest ih =>
    intro cum last h1 h2 hw
    have hT : totalWeight (ep :: rest) = ep.weight + totalWeight rest := by
      simp [totalWeight]
    simp only [selectLoop]
    split_ifs with hr
    · linarith
    · push_neg at hr
      refine ih (cum + ep.weight) last hr ?_ ?_
      · rw [hT] at h2
        linarith
      · intro e he
        exact hw e (List.mem_cons_of_mem ep he)

/-- C7 amended: with nonnegative weights and a draw r strictly inside
(0, totalWeight], `selectEndpoint` always returns an endpoint of strictly
positive weight.  The claim fails at the boundary draw r = 0 (which
`rand.Float64()` can produce): the `r <= cumulative` comparison then selects
a leading endpoint of weight 0. -/
theorem selectEndpoint_pos_weight (endpoints : List endpoint) (r : ℚ)
    (hw : ∀ ep ∈ endpoints, 0 ≤ ep.weight) (hr0 : 0 < r)
    (hrT : r ≤ totalWeight endpoints) :
    ∀ ep, selectEndpoint endpoints r = some ep → 0 < ep.weight := by
  cases endpoints with
  | nil =>
    intro ep h
    simp [selectEndpoint] at h
  | cons e rest =>
    intro ep h
    simp only [selectEndpoint, Option.some.injEq] at h
    have hpos := selectLoop_pos_weight r (e :: rest) 0 ((e :: rest).getLastD e)
      hr0 (by simpa using hrT) hw
    rwa [h] at hpos

theorem selectEndpoint_pos_weight_witness :
    selectEndpoint [⟨"GET", "/api/orders", 5⟩, ⟨"POST", "/api/orders", 3⟩] 6
      = some ⟨"POST", "/api/orders", 3⟩
    ∧ 0 < (endpoint.mk "POST" "/api/orders" 3).weight := by
  have hsel : selectEndpoint
      [⟨"GET", "/api/orders", 5⟩, ⟨"POST", "/api/orders", 3⟩] 6
      = some ⟨"POST", "/api/orders", 3⟩ := by
    norm_num [selectEndpoint, selectLoop]
  exact ⟨hsel, selectEndpoint_pos_weight
    [⟨"GET", "/api/orders", 5⟩, ⟨"POST", "/api/orders", 3⟩] 6
    (by intro ep hep; fin_cases hep <;> norm_num)
    (by norm_num) (by norm_num [totalWeight])
    ⟨"POST", "/api/orders", 3⟩ hsel⟩

/-- C7 counterexample: the endpoint list [("/a", weight 0), ("/b", weight 1)]
contains an endpoint of positive weight and the draw 0 lies in
[0, totalWeight), yet `selectEndpoint` returns the weight-0 endpoint,
because `r <= cumulative` holds with r = 0 at the first (zero-weight)
entry. -/
theorem selectEndpoint_zero_weight_cex :
    (0 : ℚ) < totalWeight [⟨"GET", "/a", 0⟩, ⟨"GET", "/b", 1⟩]
    ∧ selectEndpoint [⟨"GET", "/a", 0⟩, ⟨"GET", "/b", 1⟩] 0
        = some ⟨"GET", "/a", 0⟩ := by
  constructor
  · norm_num [totalWeight]
  · norm_num [selectEndpoint, selectLoop]

/-- C8: for every hour in 0..23 the diurnal multiplier equals
0.2 + 0.8 * (0.5 + 0.5 * cos((hour-12)·π/12)); at hour 12 it is 1.0 and at
hour 0 it is 0.2, each within 1e-6. -/
theorem diurnalMultiplier_spec :
    (∀ hour : ℤ, 0 ≤ hour → hour ≤ 23 →
      diurnalMultiplier hour
        = 0.2 + 0.8 * (0.5 + 0.5 * Real.cos (((hour : ℝ) - 12) * Real.pi / 12)))
    ∧ |diurnalMultiplier 12 - 1| ≤ 1e-6
    ∧ |diurnalMultiplier 0 - 0.2| ≤ 1e-6 := by
  refine ⟨fun hour _ _ => rfl, ?_, ?_⟩
  · have h12 : (((12 : ℤ) : ℝ) - 12) * Real.pi / 12 = 0 := by
      push_cast
      ring
    rw [diurnalMultiplier, h12, Real.cos_zero]
    rw [show (0.2 : ℝ) + 0.8 * (0.5 + 0.5 * 1) - 1 = 0 by norm_num, abs_zero]
    norm_num
  · have h0 : (((0 : ℤ) : ℝ) - 12) * Real.pi / 12 = -Real.pi := by
      push_cast
      ring
    rw [diurnalMultiplier, h0, Real.cos_neg, Real.cos_pi]
    rw [show (0.2 : ℝ) + 0.8 * (0.5 + 0.5 * (-1)) - 0.2 = 0 by norm_num, abs_zero]
    norm_num

theorem diurnalMultiplier_spec_witness :
    diurnalMultiplier 5
      = 0.2 + 0.8 * (0.5 + 0.5 * Real.cos ((((5 : ℤ) : ℝ) - 12) * Real.pi / 12)) :=
  diurnalMultiplier_spec.1 5 (by decide) (by decide)

/-- C9: whenever either breaker-guarded downstream call of the create-order
operation errs (the wrapped call failed, or the breaker rejected it while
Open/probe-exhausted), the handler responds 502 Bad Gateway — distinct from
the 500 used for the local simulated failure — and the order-processing
duration histogram is observed immediately before the error response is
written. -/
theorem handleCreateOrder_dependency_failure (n uSpike uMag : ℚ)
    (userSt paySt : BreakerState)
    (userEx payEx userCallFails payCallFails : Bool) (localDraw : ℚ)
    (h : (cbExecute userSt userEx userCallFails).1 = true
       ∨ ((cbExecute userSt userEx userCallFails).1 = false
          ∧ (cbExecute paySt payEx payCallFails).1 = true)) :
    (handleCreateOrder n uSpike uMag userSt paySt userEx payEx
        userCallFails payCallFails localDraw).1 = 502
    ∧ [Event.observeDuration, Event.writeStatus 502, Event.gaugeDec]
        <:+ (handleCreateOrder n uSpike uMag userSt paySt userEx payEx
              userCallFails payCallFails localDraw).2 := by
  rcases h with h1 | ⟨h1, h2⟩
  · refine ⟨by simp [handleCreateOrder, h1],
      ⟨[Event.gaugeInc, Event.sleepNs (simulateLatencyOrder 200 80 (1/20) n uSpike uMag)]
        ++ (if (cbExecute userSt userEx userCallFails).2 then
              [Event.downstreamInvoke "user-service"] else []), ?_⟩⟩
    simp [handleCreateOrder, h1]
  · refine ⟨by simp [handleCreateOrder, h1, h2],
      ⟨[Event.gaugeInc, Event.sleepNs (simulateLatencyOrder 200 80 (1/20) n uSpike uMag)]
        ++ (if (cbExecute userSt userEx userCallFails).2 then
              [Event.downstreamInvoke "user-service"] else [])
        ++ (if (cbExecute paySt payEx payCallFails).2 then
              [Event.downstreamInvoke "payment-service"] else []), ?_⟩⟩
    simp [handleCreateOrder, h1, h2]

theorem handleCreateOrder_dependency_failure_witness :
    (handleCreateOrder 0 1 0 .stateClosed .stateOpen false false false false 1).1 = 502
    ∧ [Event.observeDuration, Event.writeStatus 502, Event.gaugeDec]
        <:+ (handleCreateOrder 0 1 0 .stateClosed .stateOpen false false
              false false 1).2 :=
  handleCreateOrder_dependency_failure 0 1 0 .stateClosed .stateOpen false false
    false false 1 (Or.inr ⟨rfl, rfl⟩)

/-- C3 counterexample: with the payment breaker Open (user validation
succeeding), a create-order request does return the dependency failure and
never invokes the wrapped payment call, but it still executes the
simulated-latency sleep: with a centred normal draw the trace contains a
sleep of 200 ms = 2·10^8 ns ≥ 1 ms, so the failure is not sub-millisecond
and the simulated-latency sleep is not skipped. -/
theorem handleCreateOrder_open_sleep_cex :
    (handleCreateOrder 0 1 0 .stateClosed .stateOpen false false false false 1).1 = 502
    ∧ Event.sleepNs 200000000
        ∈ (handleCreateOrder 0 1 0 .stateClosed .stateOpen false false false false 1).2
    ∧ Event.downstreamInvoke "payment-service"
        ∉ (handleCreateOrder 0 1 0 .stateClosed .stateOpen false false false false 1).2
    ∧ (1000000 : ℤ) ≤ 200000000 := by
  have hdelay : delayOrder 200 80 (1/20) 0 1 0 = 200 := by norm_num [delayOrder]
  have hd : simulateLatencyOrder 200 80 (1/20) 0 1 0 = 200000000 := by
    rw [simulateLatencyOrder, hdelay, ratTrunc]
    norm_num
  have htrace : (handleCreateOrder 0 1 0 .stateClosed .stateOpen false false
        false false 1).2
      = [Event.gaugeInc, Event.sleepNs (simulateLatencyOrder 200 80 (1/20) 0 1 0),
         Event.downstreamInvoke "user-service", Event.observeDuration,
         Event.writeStatus 502, Event.gaugeDec] := rfl
  refine ⟨rfl, ?_, ?_, by norm_num⟩
  · rw [htrace, hd]
    simp
  · rw [htrace, hd]
    decide

/-- C3 amended: while the order service's payment breaker is Open, every
create-order request fails with the dependency-failure status 502 and the
wrapped payment call is never invoked — but the handler executes the
simulated-latency sleep (base 200 ms, at least 1 ms) before reaching the
breaker, so the fast-fail is not sub-millisecond and the simulated latency
is still incurred. -/
theorem handleCreateOrder_open_fails_with_sleep (n uSpike uMag : ℚ)
    (userSt : BreakerState)
    (userEx payEx userCallFails payCallFails : Bool) (localDraw : ℚ)
    (huser : (cbExecute userSt userEx userCallFails).1 = false)
    (hmag : 0 ≤ uMag) :
    (handleCreateOrder n uSpike uMag userSt .stateOpen userEx payEx
        userCallFails payCallFails localDraw).1 = 502
    ∧ Event.downstreamInvoke "payment-service"
        ∉ (handleCreateOrder n uSpike uMag userSt .stateOpen userEx payEx
            userCallFails payCallFails localDraw).2
    ∧ Event.sleepNs (simulateLatencyOrder 200 80 (1/20) n uSpike uMag)
        ∈ (handleCreateOrder n uSpike uMag userSt .stateOpen userEx payEx
            userCallFails payCallFails localDraw).2
    ∧ 1000000 ≤ simulateLatencyOrder 200 80 (1/20) n uSpike uMag := by
  have h1 : 1 ≤ ratTrunc (delayOrder 200 80 (1/20) n uSpike uMag) :=
    ratTrunc_one_le (delayOrder_ge_one 200 80 (1/20) n uSpike uMag (by norm_num) hmag)
  refine ⟨?_, ?_, ?_, ?_⟩
  · simp [handleCreateOrder, huser, cbExecute]
  · by_cases hu : (cbExecute userSt userEx userCallFails).2
      <;> simp [handleCreateOrder, huser, cbExecute, hu]
  · simp [handleCreateOrder, huser, cbExecute]
  · rw [simulateLatencyOrder]
    nlinarith

theorem handleCreateOrder_open_fails_with_sleep_witness :
    (handleCreateOrder 0 1 0 .stateClosed .stateOpen false false false false 1).1 = 502
    ∧ Event.downstreamInvoke "payment-service"
        ∉ (handleCreateOrder 0 1 0 .stateClosed .stateOpen false false false false 1).2
    ∧ Event.sleepNs (simulateLatencyOrder 200 80 (1/20) 0 1 0)
        ∈ (handleCreateOrder 0 1 0 .stateClosed .stateOpen false false false false 1).2
    ∧ 1000000 ≤ simulateLatencyOrder 200 80 (1/20) 0 1 0 :=
  handleCreateOrder_open_fails_with_sleep 0 1 0 .stateClosed false false false
    false 1 rfl (by norm_num)

/-- C10: the user service's in-memory cache satisfies the set-then-get
round-trip — after `Set(id, u)`, `Get(id)` returns `(u, true)` — and since
no operation removes entries, any key found by `Get` is still found after
any further `Set`. -/
theorem userCache_set_get (c : UserCache) (id : String) (u : User) :
    userCacheGet (userCacheSet c id u) id = (some u, true)
    ∧ ∀ (k id2 : String) (u2 : User),
        (userCacheGet c k).2 = true →
        (userCacheGet (userCacheSet c id2 u2) k).2 = true := by
  constructor
  · simp [userCacheGet, userCacheSet]
  · intro k id2 u2 h
    simp only [userCacheGet, userCacheSet] at h ⊢
    by_cases hk : k = id2 <;> simp [hk, h]

theorem userCache_set_get_witness :
    userCacheGet (userCacheSet (fun _ => none) "usr-100"
        ⟨"usr-100", "user_100", "user100@example.com", "active", 0⟩) "usr-100"
      = (some ⟨"usr-100", "user_100", "user100@example.com", "active", 0⟩, true)
    ∧ (userCacheGet (userCacheSet (userCacheSet (fun _ => none) "usr-100"
          ⟨"usr-100", "user_100", "user100@example.com", "active", 0⟩)
          "usr-101" ⟨"usr-101", "user_101", "user101@example.com", "active", 0⟩)
        "usr-100").2 = true :=
  ⟨(userCache_set_get (fun _ => none) "usr-100"
      ⟨"usr-100", "user_100", "user100@example.com", "active", 0⟩).1,
   (userCache_set_get (userCacheSet (fun _ => none) "usr-100"
      ⟨"usr-100", "user_100", "user100@example.com", "active", 0⟩) "usr-101"
      ⟨"usr-101", "user_101", "user101@example.com", "active", 0⟩).2
      "usr-100" "usr-101" ⟨"usr-101", "user_101", "user101@example.com", "active", 0⟩
      (by simp [userCacheGet, userCacheSet])⟩
